import Mathlib

/-
  Verification of the pivot-transform synthesizer in src/Controller.py
  (class Controller, methods addTiltAndDecentre and
  addTiltAndDecentreAboutPivot).

  The controller mutates a remote surface sequence through the pyZDDE
  link object.  We embed that sequence as a list of surface records
  (1-based indexing, as in the remote editor) and embed each remote call
  the controller makes (zInsertSurface, zSetSurfaceData, zSetSolve,
  zSetSurfaceParameter, zGetSurfaceData, zGetSolve, zGetUpdate and the
  DDEToLDE synchronisation) as an event.  The transform is translated as
  the exact sequence of events the Python method performs, in source
  order; the resulting state is obtained by folding the events over the
  initial state.  Keeping the event list explicit also lets us settle
  the temporal claims (what is read or inserted, and in which order).
-/

/-- A value stored in the first payload slot of a thickness solve as
returned by zGetSolve: a Python int, a Python float (embedded as a
rational), or a string (a macro name). -/
inductive SParam where
  | ival (n : Int)
  | fval (q : Rat)
  | sval (s : String)
deriving DecidableEq

/-- The 5-tuple (solvetype, param1, param2, param3, param4) that
zGetSolve returns and zSetSolve accepts for a thickness slot
(src/Controller.py lines 79-80 and 124-125 use exactly the five
positions solve[0] .. solve[4]). -/
structure SolveTuple where
  code : Int
  p1 : SParam
  p2 : Rat
  p3 : Rat
  p4 : Rat
deriving DecidableEq

/-- A solve attached to one coordinate-break parameter slot, as written
by zSetSolve(cb2, SOLVE_SPAR_PARn, SOLVE_PARn_PICKUP, refSurf, offset,
scale, col) in src/Controller.py lines 139-141. -/
structure ParSolve where
  stype : Int
  refSurf : Int
  offset : Rat
  scale : Rat
  col : Int
deriving DecidableEq

/-- One surface of the remote lens data editor: the attributes the
controller reads or writes (thickness, comment, type, the numbered
parameter slots) together with the solves attached to its thickness,
glass and parameter slots. -/
structure Surface where
  thickness : Rat
  comment : String
  stype : String
  params : Nat → Rat
  thickSolve : SolveTuple
  glassSolve : Option Int
  parSolve : Nat → Option ParSolve

/-- The attribute-default surface a fresh zInsertSurface produces
(spec section 4.1: insertion creates an attribute-default surface; a
slot without an explicit solve reads back as fixed, spec section
4.2). -/
def defaultSurface : Surface :=
  { thickness := 0
    comment := ""
    stype := "STANDARD"
    params := fun _ => 0
    thickSolve := ⟨0, .ival 0, 0, 0, 0⟩
    glassSolve := none
    parSolve := fun _ => none }

instance : Inhabited Surface := ⟨defaultSurface⟩

/-- The ordered surface sequence of the remote optical model.  Surface
numbers are 1-based, exactly as in the lens data editor. -/
structure OpticalState where
  surfaces : List Surface

/-- Solve-type code SOLVE_THICK_FIXED of the external pyZDDE link.  The
controller only uses these codes as distinct opaque tokens; their
numeric values never feed into its arithmetic (the literal set
{5, 7, 8, 9} tested in src/Controller.py line 120 is written out in the
source and is independent of these constants). -/
def SOLVE_THICK_FIXED : Int := 0

/-- Solve-type code SOLVE_THICK_PICKUP of the external pyZDDE link. -/
def SOLVE_THICK_PICKUP : Int := 5

/-- Solve-type code SOLVE_THICK_POS (thickness position solve) of the
external pyZDDE link. -/
def SOLVE_THICK_POS : Int := 7

/-- Solve-type code SOLVE_GLASS_PICKUP of the external pyZDDE link. -/
def SOLVE_GLASS_PICKUP : Int := 2

/-- Solve-type code SOLVE_PARn_PICKUP of the external pyZDDE link. -/
def SOLVE_PARn_PICKUP : Int := 3

/-- Read surface number i (1-based).  Out-of-range reads yield the
default surface; every read the transform performs is in range under
the hypotheses of the theorems below. -/
def getSurf (st : OpticalState) (i : Int) : Surface :=
  if h : 1 ≤ i ∧ (i - 1).toNat < st.surfaces.length then
    st.surfaces.get ⟨(i - 1).toNat, h.2⟩
  else defaultSurface

/-- Overwrite surface number i (1-based) with f applied to its current
value; a no-op out of range. -/
def setSurf (st : OpticalState) (i : Int) (f : Surface → Surface) : OpticalState :=
  if 1 ≤ i then ⟨st.surfaces.set ((i - 1).toNat) (f (getSurf st i))⟩ else st

/-- zInsertSurface(surfNum = i): insert a blank surface at 1-based
position i, shifting every surface at or above i up by one
(spec section 4.1). -/
def insertSurf (st : OpticalState) (i : Int) : OpticalState :=
  if 1 ≤ i then ⟨st.surfaces.insertIdx ((i - 1).toNat) defaultSurface⟩ else st

/-- Python 2 comparison solve[1] < cb1 from src/Controller.py line 121:
ints and floats compare numerically; a str compares greater than any
int in Python 2, so the comparison yields False. -/
def pyLtInt : SParam → Int → Bool
  | .ival n, m => decide (n < m)
  | .fval q, m => decide (q < (m : Rat))
  | .sval _, _ => false

/-- Python int(solve[1]) from src/Controller.py line 121: ints pass
through, floats truncate toward zero, and a string parses as a decimal
integer or raises ValueError (embedded as none). -/
def pyToInt : SParam → Option Int
  | .ival n => some n
  | .fval q => some (if 0 ≤ q then ⌊q⌋ else ⌈q⌉)
  | .sval s => s.toInt?

/-- Lines 120-123 of src/Controller.py: the param1 that is transferred
to the dummy surface.  For the solve-type codes {5, 7, 8, 9} param1 is
an integer surface number and is kept when below cb1 and incremented by
one otherwise; for every other code param1 is passed through
unchanged. -/
def fixParam1 (cb1 : Int) (solve : SolveTuple) : Option SParam :=
  if solve.code = 5 ∨ solve.code = 7 ∨ solve.code = 8 ∨ solve.code = 9 then
    if pyLtInt solve.p1 cb1 then (pyToInt solve.p1).map (fun n => SParam.ival n)
    else (pyToInt solve.p1).map (fun n => SParam.ival (n + 1))
  else some solve.p1

/-- One remote call performed by the transform. -/
inductive Event where
  | getThick (i : Int)
  | getSolve (i : Int)
  | insert (i : Int)
  | setComment (i : Int) (c : String)
  | setType (i : Int) (t : String)
  | setThick (i : Int) (v : Rat)
  | setThickSolve (i : Int) (s : SolveTuple)
  | setGlassSolve (i : Int) (r : Int)
  | setParSolve (i : Int) (slot : Nat) (ps : ParSolve)
  | setParam (i : Int) (p : Nat) (v : Rat)
  | update
deriving DecidableEq

/-- Effect of one remote call on the surface sequence.  Reads and the
synchronisation calls (zGetUpdate / DDEToLDE) leave the sequence
unchanged. -/
def applyEvent (st : OpticalState) : Event → OpticalState
  | .getThick _ => st
  | .getSolve _ => st
  | .insert i => insertSurf st i
  | .setComment i c => setSurf st i (fun s => { s with comment := c })
  | .setType i t => setSurf st i (fun s => { s with stype := t })
  | .setThick i v => setSurf st i (fun s => { s with thickness := v })
  | .setThickSolve i sv => setSurf st i (fun s => { s with thickSolve := sv })
  | .setGlassSolve i r => setSurf st i (fun s => { s with glassSolve := some r })
  | .setParSolve i slot ps =>
      setSurf st i (fun s => { s with parSolve := fun k => if k = slot then some ps else s.parSolve k })
  | .setParam i p v =>
      setSurf st i (fun s => { s with params := fun k => if k = p then v else s.params k })
  | .update => st

/-- The exact sequence of remote calls performed by
Controller.addTiltAndDecentreAboutPivot (src/Controller.py lines
68-180), in source order, together with the returned surface numbers
(cb1, cb2, dummy).  The inputs thick and solve are the values the two
snapshot reads (lines 77-80) obtain from the pre-insertion state; the
reads themselves are the first two events.  The only failure point of
the Python method is the int() conversion of a non-numeric string
param1 (line 121), which raises ValueError; this embedding returns
none for that case and produces no trace at all, so it models the
failing run only up to its outcome, not the partial mutations the
Python performs before raising.  Every claim below concerns runs in
which that conversion succeeds. -/
def pivotProg (firstSurf lastSurf : Int) (pivot_z x_c y_c x_tilt y_tilt : Rat)
    (order : Int) (thick : Rat) (solve : SolveTuple) :
    Option (List Event × (Int × Int × Int)) :=
  let numSurfBetweenCBs := lastSurf - firstSurf + 1
  let s1 := firstSurf
  let cb1 := firstSurf + 1
  let cb2 := cb1 + numSurfBetweenCBs + 1
  let dummy := cb2 + 1
  match fixParam1 cb1 solve with
  | none => none
  | some param1 =>
    let lastSurf2 := lastSurf + 2
    let cb1Ord : Rat := if order ≠ 0 then 1 else 0
    let cb2Ord : Rat := if order ≠ 0 then 0 else 1
    some ([Event.getThick lastSurf, Event.getSolve lastSurf,
      Event.insert s1, Event.insert cb1, Event.insert cb2, Event.insert dummy,
      Event.setComment s1 "Move to pivot",
      Event.setComment cb1 "Element tilt and return from pivot",
      Event.setType cb1 "COORDBRK",
      Event.setComment cb2 "Element tilt return and move to rear",
      Event.setType cb2 "COORDBRK",
      Event.setComment cb2 "Return to pivot",
      Event.setComment dummy "Dummy distance",
      Event.setThick lastSurf2 0,
      Event.setThickSolve lastSurf2 ⟨SOLVE_THICK_FIXED, .ival 0, 0, 0, 0⟩,
      Event.setThick dummy thick,
      Event.setThickSolve dummy ⟨solve.code, param1, solve.p2, solve.p3, solve.p4⟩,
      Event.setGlassSolve dummy lastSurf2,
      Event.setParSolve cb2 1 ⟨SOLVE_PARn_PICKUP, cb1, 0, -1, 6⟩,
      Event.setParSolve cb2 2 ⟨SOLVE_PARn_PICKUP, cb1, 0, -1, 7⟩,
      Event.setParSolve cb2 3 ⟨SOLVE_PARn_PICKUP, cb1, 0, -1, 8⟩,
      Event.setParSolve cb2 4 ⟨SOLVE_PARn_PICKUP, cb1, 0, -1, 9⟩,
      Event.setParSolve cb2 5 ⟨SOLVE_PARn_PICKUP, cb1, 0, -1, 10⟩,
      Event.setThickSolve s1 ⟨SOLVE_THICK_FIXED, .ival 0, 0, 0, 0⟩,
      Event.setThick s1 pivot_z,
      Event.setThickSolve cb1 ⟨SOLVE_THICK_PICKUP, .ival s1, -1, 0, 0⟩,
      Event.setThickSolve lastSurf2 ⟨SOLVE_THICK_POS, .ival cb1, 0, 0, 0⟩,
      Event.setThickSolve cb2 ⟨SOLVE_THICK_PICKUP, .ival lastSurf2, -1, 0, 0⟩,
      Event.setParam cb1 6 cb1Ord,
      Event.setParam cb2 6 cb2Ord,
      Event.setParam cb1 1 x_c,
      Event.setParam cb1 2 y_c,
      Event.setParam cb1 3 x_tilt,
      Event.setParam cb1 4 y_tilt,
      Event.setParam cb1 5 0,
      Event.update, Event.update],
      (cb1, cb2, dummy))

/-- Controller.addTiltAndDecentreAboutPivot: snapshot the trailing
surface, run the remote-call sequence, return (cb1, cb2, dummy). -/
def addTiltAndDecentreAboutPivot (st : OpticalState) (firstSurf lastSurf : Int)
    (pivot_z x_c y_c x_tilt y_tilt : Rat) (order : Int) :
    Option (OpticalState × (Int × Int × Int)) :=
  match pivotProg firstSurf lastSurf pivot_z x_c y_c x_tilt y_tilt order
      ((getSurf st lastSurf).thickness) ((getSurf st lastSurf).thickSolve) with
  | none => none
  | some (tr, r) => some (tr.foldl applyEvent st, r)

/-- The method names defined on the Controller class in
src/Controller.py. -/
def controllerMethodNames : List String :=
  ["__init__", "_updateDDE", "DDEToLDE", "LDEToDDE",
   "addTiltAndDecentre", "addTiltAndDecentreAboutPivot",
   "doOptimise", "doRaytrace", "doRayTraceForFields",
   "getAnalysisWFE", "getAnalysisWFEForFields",
   "getCoordBreakDecentreX", "getCoordBreakDecentreY",
   "getCoordBreakTiltX", "getCoordBreakTiltY",
   "getField", "getLensData", "getSurfaceComment",
   "getSurfaceThickness", "getSystemData", "getWavelength",
   "isFileAlreadyLoaded", "loadZemaxFile", "saveZemaxFile",
   "loadMeritFunction", "saveMeritFunction",
   "setCoordBreakDecentreX", "setCoordBreakDecentreY",
   "setCoordBreakTiltX", "setCoordBreakTiltY",
   "setFieldsNumberOf", "setFieldType", "setFieldValue",
   "setFieldsTable", "setSolveCoordBreakDecentres",
   "setSolveCoordBreakTilts", "setSurfaceComment",
   "setSurfaceThicknessSolveVariable", "setWavelengthNumberOf",
   "setWavelengthValue", "setWavelengthsTable"]

/-- Controller.addTiltAndDecentre (src/Controller.py lines 32-41)
invokes self.addTiltAndDecentreFromPivot, a name that is not defined
anywhere in the repository (the pivot method is named
addTiltAndDecentreAboutPivot), so in Python 2 every call raises
AttributeError before touching the model.  The embedding therefore
always fails. -/
def addTiltAndDecentre (st : OpticalState) (start_surf end_surf : Int)
    (x_c y_c x_tilt y_tilt : Rat) (order : Int) :
    Option (OpticalState × (Int × Int × Int)) :=
  if "addTiltAndDecentreFromPivot" ∈ controllerMethodNames then
    addTiltAndDecentreAboutPivot st start_surf end_surf 0 x_c y_c x_tilt y_tilt order
  else none

/-- Modelled from the spec: the resolved value of a coordinate-break
parameter slot (spec section 3, PickupWithOffsetScale: value equals
offset + scale times the referenced slot of the referenced surface;
Zemax stores param k of the referenced surface in editor column k + 5,
which is what the col field records).  A slot without a pickup solve
resolves to its stored value.  The evaluation of solves happens inside
the external optical application and is not part of src/. -/
def resolvedParam (st : OpticalState) (i : Int) (slot : Nat) : Rat :=
  match (getSurf st i).parSolve slot with
  | some ps =>
      if ps.stype = SOLVE_PARn_PICKUP then
        ps.offset + ps.scale * ((getSurf st ps.refSurf).params ((ps.col - 5).toNat))
      else (getSurf st i).params slot
  | none => (getSurf st i).params slot

/-- Whether an event is one of the two snapshot reads. -/
def isRead : Event → Bool
  | .getThick _ => true
  | .getSolve _ => true
  | _ => false

/-- Whether an event is a surface insertion. -/
def isInsert : Event → Bool
  | .insert _ => true
  | _ => false

/-- Whether an event is neither a snapshot read nor an insertion. -/
def noReadInsert (e : Event) : Bool := !isRead e && !isInsert e

/-- The surface number an event addresses (0 for the synchronisation
events, which address no surface). -/
def eTarget : Event → Int
  | .getThick i => i
  | .getSolve i => i
  | .insert i => i
  | .setComment i _ => i
  | .setType i _ => i
  | .setThick i _ => i
  | .setThickSolve i _ => i
  | .setGlassSolve i _ => i
  | .setParSolve i _ _ => i
  | .setParam i _ _ => i
  | .update => 0

/-- The effect of a non-insert event on the single surface it
addresses (reads and synchronisation events change nothing). -/
def applySurfEvent (s : Surface) : Event → Surface
  | .setComment _ c => { s with comment := c }
  | .setType _ t => { s with stype := t }
  | .setThick _ v => { s with thickness := v }
  | .setThickSolve _ sv => { s with thickSolve := sv }
  | .setGlassSolve _ r => { s with glassSolve := some r }
  | .setParSolve _ slot ps => { s with parSolve := fun k => if k = slot then some ps else s.parSolve k }
  | .setParam _ p v => { s with params := fun k => if k = p then v else s.params k }
  | _ => s

/-- The (cb1, cb2, dummy) component of a transform result. -/
def resIndices : Option (OpticalState × (Int × Int × Int)) → Option (Int × Int × Int) :=
  fun o => o.map (fun r => r.2)

/-- The surface-sequence length of a transform result. -/
def resLen : Option (OpticalState × (Int × Int × Int)) → Option Nat :=
  fun o => o.map (fun r => r.1.surfaces.length)

/-- Modelled from the spec: pyZDDE encodes a thickness PICKUP solve as
(solvetype, pickup surface, scale factor, offset, _); the scale sits in
param2.  The encoding lives in the external link, not in src/. -/
def thickPickupScale (s : SolveTuple) : Rat := s.p2

/-- Modelled from the spec: the offset of a thickness PICKUP solve sits
in param3 of the pyZDDE solve tuple. -/
def thickPickupOffset (s : SolveTuple) : Rat := s.p3

/-- Modelled from the spec: pyZDDE encodes a thickness position solve
as (solvetype, reference surface, offset, _, _); the offset sits in
param2. -/
def thickPosOffset (s : SolveTuple) : Rat := s.p2

/-- The surface a transform result holds at index i. -/
def resSurf (i : Int) : Option (OpticalState × (Int × Int × Int)) → Option Surface :=
  fun o => o.map (fun r => getSurf r.1 i)

/-- The resolved coordinate-break parameter slot k of surface i in a
transform result. -/
def resResolved (i : Int) (k : Nat) : Option (OpticalState × (Int × Int × Int)) → Option Rat :=
  fun o => o.map (fun r => resolvedParam r.1 i k)

/-- A concrete six-surface prescription used to exercise the theorems:
the element group will span surfaces 3..5, and surface 5 carries a
reference-bearing thickness solve (code 5) whose reference 5 lies at or
above the cb1 position 4. -/
def exLens : OpticalState :=
  ⟨[defaultSurface,
    { defaultSurface with thickness := 3 },
    { defaultSurface with thickness := 4 },
    { defaultSurface with thickness := 5 },
    { defaultSurface with
      thickness := 7
      comment := "rear"
      thickSolve := ⟨5, .ival 5, 11, 12, 13⟩ },
    defaultSurface]⟩

/-- Multiplication by the scale factor -1 of the mirror chain. -/
def negRat (q : Rat) : Rat := -1 * q

/-- Parameter slot 6 of a surface (the coordinate-break order flag). -/
def param6 (s : Surface) : Rat := s.params 6

/-- The first six remote calls of a transform trace. -/
def progTraceTake6 : Option (List Event × (Int × Int × Int)) → Option (List Event) :=
  fun o => o.map (fun p => p.1.take 6)

/-- Whether everything after the first six remote calls of a trace is
neither a snapshot read nor an insertion. -/
def progTraceTailOk : Option (List Event × (Int × Int × Int)) → Option Bool :=
  fun o => o.map (fun p => (p.1.drop 6).all noReadInsert)

theorem length_setSurf (st : OpticalState) (j : Int) (g : Surface → Surface) :
    (setSurf st j g).surfaces.length = st.surfaces.length := by
  unfold setSurf
  split <;> simp

theorem length_insertSurf (st : OpticalState) (j : Int) (h1 : 1 ≤ j)
    (h2 : j ≤ (st.surfaces.length : Int) + 1) :
    (insertSurf st j).surfaces.length = st.surfaces.length + 1 := by
  unfold insertSurf
  rw [if_pos h1]
  exact List.length_insertIdx _ _ (by omega)

theorem getSurf_setSurf_ne (st : OpticalState) (i j : Int) (g : Surface → Surface)
    (h : i ≠ j) : getSurf (setSurf st j g) i = getSurf st i := by
  unfold setSurf
  split
  case isTrue hj =>
    unfold getSurf
    simp only [List.length_set]
    split
    case isTrue hc =>
      simp only [List.get_eq_getElem]
      exact List.getElem_set_of_ne (by omega) _ _
    case isFalse hc => rfl
  case isFalse hj => rfl

theorem getSurf_setSurf_self (st : OpticalState) (i j : Int) (g : Surface → Surface)
    (h : i = j) (h1 : 1 ≤ i) (h2 : i ≤ (st.surfaces.length : Int)) :
    getSurf (setSurf st j g) i = g (getSurf st i) := by
  subst h
  unfold setSurf
  rw [if_pos h1]
  simp only [getSurf, List.length_set]
  rw [dif_pos ⟨h1, by omega⟩]
  simp only [List.get_eq_getElem]
  rw [List.getElem_set_self (by simp; omega)]

theorem getSurf_insertSurf_lt (st : OpticalState) (i j : Int)
    (h : i < j) : getSurf (insertSurf st j) i = getSurf st i := by
  unfold insertSurf
  split
  case isFalse hj => rfl
  case isTrue hj =>
    unfold getSurf
    by_cases hi : 1 ≤ i
    · by_cases hlen : (j - 1).toNat ≤ st.surfaces.length
      · have hL := List.length_insertIdx (a := defaultSurface) ((j - 1).toNat) st.surfaces hlen
        by_cases hc : (i - 1).toNat < st.surfaces.length
        · rw [dif_pos ⟨hi, by rw [hL]; omega⟩, dif_pos ⟨hi, hc⟩]
          simp only [List.get_eq_getElem]
          exact List.getElem_insertIdx_of_lt _ _ _ _ (by omega) (by omega)
        · exact absurd hc (by omega)
      · rw [List.insertIdx_of_length_lt _ _ _ (by omega)]
    · rw [dif_neg (fun hx => hi hx.1), dif_neg (fun hx => hi hx.1)]

theorem getSurf_insertSurf_self (st : OpticalState) (i j : Int)
    (h : i = j) (h1 : 1 ≤ i) (h2 : i ≤ (st.surfaces.length : Int) + 1) :
    getSurf (insertSurf st j) i = defaultSurface := by
  subst h
  unfold insertSurf
  rw [if_pos h1]
  unfold getSurf
  have hL := List.length_insertIdx (a := defaultSurface) ((i - 1).toNat) st.surfaces (by omega)
  rw [dif_pos ⟨h1, by rw [hL]; omega⟩]
  simp only [List.get_eq_getElem]
  exact List.getElem_insertIdx_self _ _ _ (by omega)

theorem getSurf_insertSurf_gt (st : OpticalState) (i j : Int)
    (h : j < i) (h1 : 1 ≤ j) (h2 : j ≤ (st.surfaces.length : Int) + 1) :
    getSurf (insertSurf st j) i = getSurf st (i - 1) := by
  unfold insertSurf
  rw [if_pos h1]
  unfold getSurf
  have hL := List.length_insertIdx (a := defaultSurface) ((j - 1).toNat) st.surfaces (by omega)
  by_cases hc : (i - 1 - 1).toNat < st.surfaces.length
  · rw [dif_pos ⟨by omega, by rw [hL]; omega⟩, dif_pos ⟨by omega, hc⟩]
    simp only [List.get_eq_getElem]
    simp only [show (i - 1).toNat = (j - 1).toNat + (i - j - 1).toNat + 1 from by omega,
      show (i - 1 - 1).toNat = (j - 1).toNat + (i - j - 1).toNat from by omega]
    exact List.getElem_insertIdx_add_succ _ _ _ _ (by omega)
  · have hcL : ¬((i - 1).toNat < (st.surfaces.insertIdx ((j - 1).toNat) defaultSurface).length) := by
      rw [hL]; omega
    rw [dif_neg (fun hx => absurd hx.2 hcL), dif_neg (fun hx => absurd hx.2 (by omega))]

theorem length_applyEvent_writes (st : OpticalState) (e : Event)
    (h : isInsert e = false) :
    (applyEvent st e).surfaces.length = st.surfaces.length := by
  cases e
  case insert j => simp [isInsert] at h
  all_goals simp [applyEvent, length_setSurf]

theorem length_foldl_writes (ws : List Event) (st0 : OpticalState)
    (hws : ∀ e ∈ ws, isInsert e = false) :
    (List.foldl applyEvent st0 ws).surfaces.length = st0.surfaces.length := by
  induction ws generalizing st0 with
  | nil => rfl
  | cons e ws ih =>
      rw [List.foldl_cons, ih (applyEvent st0 e) (fun x hx => hws x (by simp [hx])),
        length_applyEvent_writes st0 e (hws e (by simp))]

theorem getSurf_applyEvent_ne (st : OpticalState) (e : Event) (i : Int)
    (h : isInsert e = false) (hne : eTarget e ≠ i) :
    getSurf (applyEvent st e) i = getSurf st i := by
  cases e
  case insert j => simp [isInsert] at h
  all_goals simp only [applyEvent]
  all_goals first
  | rfl
  | (apply getSurf_setSurf_ne; simp only [eTarget] at hne; omega)

theorem getSurf_applyEvent_self (st : OpticalState) (e : Event) (i : Int)
    (h : isInsert e = false) (he : eTarget e = i) (h1 : 1 ≤ i)
    (h2 : i ≤ (st.surfaces.length : Int)) :
    getSurf (applyEvent st e) i = applySurfEvent (getSurf st i) e := by
  cases e
  case insert j => simp [isInsert] at h
  case setComment j c =>
    simp only [applyEvent, applySurfEvent]
    rw [getSurf_setSurf_self st i j _ (by simp only [eTarget] at he; omega) h1 h2]
  case setType j t =>
    simp only [applyEvent, applySurfEvent]
    rw [getSurf_setSurf_self st i j _ (by simp only [eTarget] at he; omega) h1 h2]
  case setThick j v =>
    simp only [applyEvent, applySurfEvent]
    rw [getSurf_setSurf_self st i j _ (by simp only [eTarget] at he; omega) h1 h2]
  case setThickSolve j sv =>
    simp only [applyEvent, applySurfEvent]
    rw [getSurf_setSurf_self st i j _ (by simp only [eTarget] at he; omega) h1 h2]
  case setGlassSolve j r =>
    simp only [applyEvent, applySurfEvent]
    rw [getSurf_setSurf_self st i j _ (by simp only [eTarget] at he; omega) h1 h2]
  case setParSolve j slot ps =>
    simp only [applyEvent, applySurfEvent]
    rw [getSurf_setSurf_self st i j _ (by simp only [eTarget] at he; omega) h1 h2]
  case setParam j p v =>
    simp only [applyEvent, applySurfEvent]
    rw [getSurf_setSurf_self st i j _ (by simp only [eTarget] at he; omega) h1 h2]
  all_goals simp only [applyEvent, applySurfEvent]

theorem getSurf_foldl_writes (ws : List Event) (st0 : OpticalState) (i : Int)
    (hws : ∀ e ∈ ws, isInsert e = false) (h1 : 1 ≤ i)
    (h2 : i ≤ (st0.surfaces.length : Int)) :
    getSurf (List.foldl applyEvent st0 ws) i =
      List.foldl applySurfEvent (getSurf st0 i)
        (ws.filter (fun e => decide (eTarget e = i))) := by
  induction ws generalizing st0 with
  | nil => simp
  | cons e ws ih =>
      have hlen : (applyEvent st0 e).surfaces.length = st0.surfaces.length :=
        length_applyEvent_writes st0 e (hws e (by simp))
      rw [List.foldl_cons,
        ih (applyEvent st0 e) (fun x hx => hws x (by simp [hx])) (by omega)]
      by_cases he : eTarget e = i
      · rw [List.filter_cons_of_pos (by simp [he]), List.foldl_cons,
          getSurf_applyEvent_self st0 e i (hws e (by simp)) he h1 h2]
      · rw [List.filter_cons_of_neg (by simp [he]),
          getSurf_applyEvent_ne st0 e i (hws e (by simp)) he]

theorem pivotProg_shape (f l : Int) (pz xc yc xt yt : Rat) (o : Int) (th : Rat)
    (sv : SolveTuple) (tr : List Event) (r : Int × Int × Int)
    (hp : pivotProg f l pz xc yc xt yt o th sv = some (tr, r)) :
    ∃ param1, fixParam1 (f + 1) sv = some param1 ∧
      tr = [Event.getThick l, Event.getSolve l,
        Event.insert f, Event.insert (f + 1),
        Event.insert (f + 1 + (l - f + 1) + 1), Event.insert (f + 1 + (l - f + 1) + 1 + 1)] ++
        [Event.setComment f "Move to pivot",
        Event.setComment (f + 1) "Element tilt and return from pivot",
        Event.setType (f + 1) "COORDBRK",
        Event.setComment (f + 1 + (l - f + 1) + 1) "Element tilt return and move to rear",
        Event.setType (f + 1 + (l - f + 1) + 1) "COORDBRK",
        Event.setComment (f + 1 + (l - f + 1) + 1) "Return to pivot",
        Event.setComment (f + 1 + (l - f + 1) + 1 + 1) "Dummy distance",
        Event.setThick (l + 2) 0,
        Event.setThickSolve (l + 2) ⟨SOLVE_THICK_FIXED, .ival 0, 0, 0, 0⟩,
        Event.setThick (f + 1 + (l - f + 1) + 1 + 1) th,
        Event.setThickSolve (f + 1 + (l - f + 1) + 1 + 1) ⟨sv.code, param1, sv.p2, sv.p3, sv.p4⟩,
        Event.setGlassSolve (f + 1 + (l - f + 1) + 1 + 1) (l + 2),
        Event.setParSolve (f + 1 + (l - f + 1) + 1) 1 ⟨SOLVE_PARn_PICKUP, f + 1, 0, -1, 6⟩,
        Event.setParSolve (f + 1 + (l - f + 1) + 1) 2 ⟨SOLVE_PARn_PICKUP, f + 1, 0, -1, 7⟩,
        Event.setParSolve (f + 1 + (l - f + 1) + 1) 3 ⟨SOLVE_PARn_PICKUP, f + 1, 0, -1, 8⟩,
        Event.setParSolve (f + 1 + (l - f + 1) + 1) 4 ⟨SOLVE_PARn_PICKUP, f + 1, 0, -1, 9⟩,
        Event.setParSolve (f + 1 + (l - f + 1) + 1) 5 ⟨SOLVE_PARn_PICKUP, f + 1, 0, -1, 10⟩,
        Event.setThickSolve f ⟨SOLVE_THICK_FIXED, .ival 0, 0, 0, 0⟩,
        Event.setThick f pz,
        Event.setThickSolve (f + 1) ⟨SOLVE_THICK_PICKUP, .ival f, -1, 0, 0⟩,
        Event.setThickSolve (l + 2) ⟨SOLVE_THICK_POS, .ival (f + 1), 0, 0, 0⟩,
        Event.setThickSolve (f + 1 + (l - f + 1) + 1) ⟨SOLVE_THICK_PICKUP, .ival (l + 2), -1, 0, 0⟩,
        Event.setParam (f + 1) 6 (if o ≠ 0 then 1 else 0),
        Event.setParam (f + 1 + (l - f + 1) + 1) 6 (if o ≠ 0 then 0 else 1),
        Event.setParam (f + 1) 1 xc,
        Event.setParam (f + 1) 2 yc,
        Event.setParam (f + 1) 3 xt,
        Event.setParam (f + 1) 4 yt,
        Event.setParam (f + 1) 5 0,
        Event.update, Event.update] ∧
      r = (f + 1, f + 1 + (l - f + 1) + 1, f + 1 + (l - f + 1) + 1 + 1) := by
  cases hfix : fixParam1 (f + 1) sv with
  | none =>
      exfalso
      simp only [pivotProg] at hp
      rw [hfix] at hp
      simp at hp
  | some param1 =>
      simp only [pivotProg] at hp
      rw [hfix] at hp
      simp only [Option.some.injEq, Prod.mk.injEq] at hp
      exact ⟨param1, rfl, hp.1.symm, hp.2.symm⟩

set_option maxHeartbeats 1000000 in
theorem run_spec (st : OpticalState) (f l : Int) (pz xc yc xt yt : Rat) (o : Int)
    (st' : OpticalState) (c1 c2 d : Int)
    (hf : 1 ≤ f) (hfl : f ≤ l) (hl : l ≤ (st.surfaces.length : Int))
    (hrun : addTiltAndDecentreAboutPivot st f l pz xc yc xt yt o = some (st', (c1, c2, d))) :
    ∃ param1, fixParam1 (f + 1) (getSurf st l).thickSolve = some param1 ∧
      (c1 = f + 1 ∧ c2 = l + 3 ∧ d = l + 4) ∧
      st'.surfaces.length = st.surfaces.length + 4 ∧
      ((getSurf st' f).thickness = pz ∧
        (getSurf st' f).thickSolve = ⟨SOLVE_THICK_FIXED, .ival 0, 0, 0, 0⟩ ∧
        (getSurf st' f).comment = "Move to pivot") ∧
      ((getSurf st' (f + 1)).stype = "COORDBRK" ∧
        (getSurf st' (f + 1)).thickSolve = ⟨SOLVE_THICK_PICKUP, .ival f, -1, 0, 0⟩ ∧
        (getSurf st' (f + 1)).params 1 = xc ∧
        (getSurf st' (f + 1)).params 2 = yc ∧
        (getSurf st' (f + 1)).params 3 = xt ∧
        (getSurf st' (f + 1)).params 4 = yt ∧
        (getSurf st' (f + 1)).params 5 = 0 ∧
        (getSurf st' (f + 1)).params 6 = (if o ≠ 0 then 1 else 0) ∧
        (∀ k, (getSurf st' (f + 1)).parSolve k = none)) ∧
      ((getSurf st' (l + 2)).thickness = 0 ∧
        (getSurf st' (l + 2)).thickSolve = ⟨SOLVE_THICK_POS, .ival (f + 1), 0, 0, 0⟩) ∧
      ((getSurf st' (l + 3)).stype = "COORDBRK" ∧
        (getSurf st' (l + 3)).thickSolve = ⟨SOLVE_THICK_PICKUP, .ival (l + 2), -1, 0, 0⟩ ∧
        (getSurf st' (l + 3)).params 6 = (if o ≠ 0 then 0 else 1) ∧
        (∀ k, 1 ≤ k → k ≤ 5 → (getSurf st' (l + 3)).params k = 0) ∧
        (getSurf st' (l + 3)).parSolve 1 = some ⟨SOLVE_PARn_PICKUP, f + 1, 0, -1, 6⟩ ∧
        (getSurf st' (l + 3)).parSolve 2 = some ⟨SOLVE_PARn_PICKUP, f + 1, 0, -1, 7⟩ ∧
        (getSurf st' (l + 3)).parSolve 3 = some ⟨SOLVE_PARn_PICKUP, f + 1, 0, -1, 8⟩ ∧
        (getSurf st' (l + 3)).parSolve 4 = some ⟨SOLVE_PARn_PICKUP, f + 1, 0, -1, 9⟩ ∧
        (getSurf st' (l + 3)).parSolve 5 = some ⟨SOLVE_PARn_PICKUP, f + 1, 0, -1, 10⟩) ∧
      ((getSurf st' (l + 4)).comment = "Dummy distance" ∧
        (getSurf st' (l + 4)).thickness = (getSurf st l).thickness ∧
        (getSurf st' (l + 4)).thickSolve = ⟨(getSurf st l).thickSolve.code, param1,
          (getSurf st l).thickSolve.p2, (getSurf st l).thickSolve.p3,
          (getSurf st l).thickSolve.p4⟩ ∧
        (getSurf st' (l + 4)).glassSolve = some (l + 2)) := by
  cases hp : pivotProg f l pz xc yc xt yt o ((getSurf st l).thickness) ((getSurf st l).thickSolve) with
  | none =>
      exfalso
      simp only [addTiltAndDecentreAboutPivot] at hrun
      rw [hp] at hrun
      simp at hrun
  | some pr =>
      obtain ⟨tr, r⟩ := pr
      obtain ⟨param1, hfix, htr, hr⟩ := pivotProg_shape _ _ _ _ _ _ _ _ _ _ _ _ hp
      simp only [addTiltAndDecentreAboutPivot] at hrun
      rw [hp] at hrun
      simp only [Option.some.injEq, Prod.mk.injEq] at hrun
      obtain ⟨hst, hrest⟩ := hrun
      subst htr
      subst hrest
      simp only [Prod.mk.injEq] at hr
      obtain ⟨hc1, hc2, hd⟩ := hr
      clear hp
      have hL1 : (insertSurf st f).surfaces.length = st.surfaces.length + 1 :=
        length_insertSurf st f (by omega) (by omega)
      have hL2 : (insertSurf (insertSurf st f) (f + 1)).surfaces.length = st.surfaces.length + 2 := by
        rw [length_insertSurf (insertSurf st f) (f + 1) (by omega) (by omega), hL1]
      have hL3 : (insertSurf (insertSurf (insertSurf st f) (f + 1)) (f + 1 + (l - f + 1) + 1)).surfaces.length = st.surfaces.length + 3 := by
        rw [length_insertSurf (insertSurf (insertSurf st f) (f + 1)) (f + 1 + (l - f + 1) + 1) (by omega) (by omega), hL2]
      have hL4 : (insertSurf (insertSurf (insertSurf (insertSurf st f) (f + 1)) (f + 1 + (l - f + 1) + 1)) (f + 1 + (l - f + 1) + 1 + 1)).surfaces.length = st.surfaces.length + 4 := by
        rw [length_insertSurf (insertSurf (insertSurf (insertSurf st f) (f + 1)) (f + 1 + (l - f + 1) + 1)) (f + 1 + (l - f + 1) + 1 + 1) (by omega) (by omega), hL3]
      rw [List.foldl_append] at hst
      refine ⟨param1, hfix, ⟨by omega, by omega, by omega⟩, ?_, ?_, ?_, ?_, ?_, ?_⟩
      · rw [← hst, length_foldl_writes _ _ (by simp [isInsert])]
        simp only [List.foldl_cons, List.foldl_nil, applyEvent]
        omega
      · rw [← hst, getSurf_foldl_writes]
        rotate_left
        · simp [isInsert]
        · omega
        · simp only [List.foldl_cons, List.foldl_nil, applyEvent]
          omega
        simp only [List.foldl_cons, List.foldl_nil, applyEvent]
        simp (disch := omega) only [getSurf_insertSurf_lt,
          getSurf_insertSurf_self, getSurf_insertSurf_gt]
        simp (disch := (try simp only [eTarget, decide_eq_true_eq,
            decide_eq_false_iff_not]); try omega) only [List.filter_cons_of_pos,
          List.filter_cons_of_neg, List.filter_nil]
        simp only [List.foldl_cons, List.foldl_nil, applySurfEvent]
        try simp [defaultSurface]
        try (intro k hk1 hk2 hk6; omega)
      · rw [← hst, getSurf_foldl_writes]
        rotate_left
        · simp [isInsert]
        · omega
        · simp only [List.foldl_cons, List.foldl_nil, applyEvent]
          omega
        simp only [List.foldl_cons, List.foldl_nil, applyEvent]
        simp (disch := omega) only [getSurf_insertSurf_lt,
          getSurf_insertSurf_self, getSurf_insertSurf_gt]
        simp (disch := (try simp only [eTarget, decide_eq_true_eq,
            decide_eq_false_iff_not]); try omega) only [List.filter_cons_of_pos,
          List.filter_cons_of_neg, List.filter_nil]
        simp only [List.foldl_cons, List.foldl_nil, applySurfEvent]
        try simp [defaultSurface]
        try (intro k hk1 hk2 hk6; omega)
      · rw [← hst, getSurf_foldl_writes]
        rotate_left
        · simp [isInsert]
        · omega
        · simp only [List.foldl_cons, List.foldl_nil, applyEvent]
          omega
        simp only [List.foldl_cons, List.foldl_nil, applyEvent]
        simp (disch := omega) only [getSurf_insertSurf_lt,
          getSurf_insertSurf_self, getSurf_insertSurf_gt]
        simp (disch := (try simp only [eTarget, decide_eq_true_eq,
            decide_eq_false_iff_not]); try omega) only [List.filter_cons_of_pos,
          List.filter_cons_of_neg, List.filter_nil]
        simp only [List.foldl_cons, List.foldl_nil, applySurfEvent]
        try simp [defaultSurface]
        try (intro k hk1 hk2 hk6; omega)
      · rw [← hst, getSurf_foldl_writes]
        rotate_left
        · simp [isInsert]
        · omega
        · simp only [List.foldl_cons, List.foldl_nil, applyEvent]
          omega
        simp only [List.foldl_cons, List.foldl_nil, applyEvent]
        simp (disch := omega) only [getSurf_insertSurf_lt,
          getSurf_insertSurf_self, getSurf_insertSurf_gt]
        simp (disch := (try simp only [eTarget, decide_eq_true_eq,
            decide_eq_false_iff_not]); try omega) only [List.filter_cons_of_pos,
          List.filter_cons_of_neg, List.filter_nil]
        simp only [List.foldl_cons, List.foldl_nil, applySurfEvent]
        try simp [defaultSurface]
        try (intro k hk1 hk2 hk6; omega)
      · rw [← hst, getSurf_foldl_writes]
        rotate_left
        · simp [isInsert]
        · omega
        · simp only [List.foldl_cons, List.foldl_nil, applyEvent]
          omega
        simp only [List.foldl_cons, List.foldl_nil, applyEvent]
        simp (disch := omega) only [getSurf_insertSurf_lt,
          getSurf_insertSurf_self, getSurf_insertSurf_gt]
        simp (disch := (try simp only [eTarget, decide_eq_true_eq,
            decide_eq_false_iff_not]); try omega) only [List.filter_cons_of_pos,
          List.filter_cons_of_neg, List.filter_nil]
        simp only [List.foldl_cons, List.foldl_nil, applySurfEvent]
        try simp [defaultSurface]
        try (intro k hk1 hk2 hk6; omega)

/-- C2: for every request with 1 <= firstSurface <= lastSurface the
synthesizer computes n = lastSurface - firstSurface + 1 and derives
the four insertion indices s1 = firstSurface, cb1 = firstSurface + 1,
cb2 = cb1 + n + 1, dummy = cb2 + 1 (the trace inserts at exactly those
positions), returning the triple (cb1, cb2, dummy) so computed
(src/Controller.py lines 68-74 and 180). -/
theorem index_synthesis (st : OpticalState) (f l : Int) (pz xc yc xt yt : Rat)
    (o : Int) (st' : OpticalState) (c1 c2 d : Int) (tr : List Event) (r : Int × Int × Int)
    (h1 : 1 ≤ f) (h2 : f ≤ l)
    (hrun : addTiltAndDecentreAboutPivot st f l pz xc yc xt yt o = some (st', (c1, c2, d)))
    (htr : pivotProg f l pz xc yc xt yt o ((getSurf st l).thickness)
      ((getSurf st l).thickSolve) = some (tr, r)) :
    (c1 = f + 1 ∧ c2 = c1 + (l - f + 1) + 1 ∧ d = c2 + 1) ∧
    tr.filter isInsert = [Event.insert f, Event.insert c1, Event.insert c2, Event.insert d] := by
  cases hp : pivotProg f l pz xc yc xt yt o ((getSurf st l).thickness) ((getSurf st l).thickSolve) with
  | none =>
      exfalso
      simp only [addTiltAndDecentreAboutPivot] at hrun
      rw [hp] at hrun
      simp at hrun
  | some pr =>
      obtain ⟨tr2, r2⟩ := pr
      obtain ⟨param1, hfix, htr2, hr⟩ := pivotProg_shape _ _ _ _ _ _ _ _ _ _ _ _ hp
      rw [hp] at htr
      simp only [Option.some.injEq, Prod.mk.injEq] at htr
      obtain ⟨htreq, hreq⟩ := htr
      subst htreq hreq
      simp only [addTiltAndDecentreAboutPivot] at hrun
      rw [hp] at hrun
      simp only [Option.some.injEq, Prod.mk.injEq] at hrun
      obtain ⟨hst, hrest⟩ := hrun
      subst hrest
      simp only [Prod.mk.injEq] at hr
      obtain ⟨hc1, hc2, hd⟩ := hr
      subst htr2
      refine ⟨⟨by omega, by omega, by omega⟩, ?_⟩
      rw [show c1 = f + 1 from by omega, show c2 = f + 1 + (l - f + 1) + 1 from by omega,
        show d = f + 1 + (l - f + 1) + 1 + 1 from by omega]
      simp [isInsert]

theorem index_synthesis_witness :
    resIndices (addTiltAndDecentreAboutPivot exLens 3 5 2 1 1 1 1 0) = some (4, 8, 9) := by
  obtain ⟨st0, hr⟩ : ∃ st0,
      addTiltAndDecentreAboutPivot exLens 3 5 2 1 1 1 1 0 = some (st0, (4, 8, 9)) := ⟨_, rfl⟩
  obtain ⟨tr0, r0, htr⟩ : ∃ tr0 r0,
      pivotProg 3 5 2 1 1 1 1 0 ((getSurf exLens 5).thickness)
        ((getSurf exLens 5).thickSolve) = some (tr0, r0) := ⟨_, _, rfl⟩
  have h := index_synthesis exLens 3 5 2 1 1 1 1 0 st0 4 8 9 tr0 r0
    (by decide) (by decide) hr htr
  rw [resIndices, hr, Option.map_some']

theorem fixParam1_ival (c : Int) (sv : SolveTuple) (n : Int)
    (hcode : sv.code = 5 ∨ sv.code = 7 ∨ sv.code = 8 ∨ sv.code = 9)
    (hp1 : sv.p1 = SParam.ival n) :
    fixParam1 c sv = some (SParam.ival (if n < c then n else n + 1)) := by
  unfold fixParam1
  rw [if_pos hcode, hp1]
  by_cases hn : n < c
  · rw [if_pos (by simp [pyLtInt, hn])]
    simp [pyToInt, hn]
  · rw [if_neg (by simp [pyLtInt, hn])]
    simp [pyToInt, hn]

theorem fixParam1_nonref (c : Int) (sv : SolveTuple)
    (hcode : ¬(sv.code = 5 ∨ sv.code = 7 ∨ sv.code = 8 ∨ sv.code = 9)) :
    fixParam1 c sv = some sv.p1 := by
  unfold fixParam1
  rw [if_neg hcode]

/-- C1: the thickness constraint snapshotted from the trailing surface
is copied to the dummy surface; when its solve-type code is one of
{5, 7, 8, 9} (the reference-bearing variants) and its first payload is
an integer surface index, the stored reference is kept if it is
numerically below the returned cb1 position and incremented by exactly
one if it is at or above cb1; for every other solve-type code (literal
value or macro payload) the payload is copied unchanged
(src/Controller.py lines 117-125). -/
theorem dummy_solve_migration (st : OpticalState) (f l : Int) (pz xc yc xt yt : Rat)
    (o : Int) (st' : OpticalState) (c1 c2 d : Int)
    (hf : 1 ≤ f) (hfl : f ≤ l) (hl : l ≤ (st.surfaces.length : Int))
    (hrun : addTiltAndDecentreAboutPivot st f l pz xc yc xt yt o = some (st', (c1, c2, d))) :
    (∀ n, ((getSurf st l).thickSolve.code = 5 ∨ (getSurf st l).thickSolve.code = 7 ∨
        (getSurf st l).thickSolve.code = 8 ∨ (getSurf st l).thickSolve.code = 9) →
      (getSurf st l).thickSolve.p1 = SParam.ival n →
      (getSurf st' d).thickSolve = ⟨(getSurf st l).thickSolve.code,
        SParam.ival (if n < c1 then n else n + 1),
        (getSurf st l).thickSolve.p2, (getSurf st l).thickSolve.p3,
        (getSurf st l).thickSolve.p4⟩) ∧
    (¬((getSurf st l).thickSolve.code = 5 ∨ (getSurf st l).thickSolve.code = 7 ∨
        (getSurf st l).thickSolve.code = 8 ∨ (getSurf st l).thickSolve.code = 9) →
      (getSurf st' d).thickSolve = (getSurf st l).thickSolve) := by
  obtain ⟨param1, hfx, hidx, hlen, hs1, hcb1, hl2, hcb2, hdum⟩ :=
    run_spec st f l pz xc yc xt yt o st' c1 c2 d hf hfl hl hrun
  constructor
  · intro n hcode hp1
    rw [fixParam1_ival (f + 1) _ n hcode hp1] at hfx
    simp only [Option.some.injEq] at hfx
    rw [hidx.2.2, show c1 = f + 1 from hidx.1, hdum.2.2.1, ← hfx]
  · intro hcode
    rw [fixParam1_nonref _ _ hcode] at hfx
    simp only [Option.some.injEq] at hfx
    rw [hidx.2.2, hdum.2.2.1, ← hfx]

theorem dummy_solve_migration_witness :
    Option.map Surface.thickSolve (resSurf 9 (addTiltAndDecentreAboutPivot exLens 3 5 2 1 1 1 1 0)) =
      some ⟨5, SParam.ival 6, 11, 12, 13⟩ := by
  obtain ⟨st0, hr⟩ : ∃ st0,
      addTiltAndDecentreAboutPivot exLens 3 5 2 1 1 1 1 0 = some (st0, (4, 8, 9)) := ⟨_, rfl⟩
  have h := dummy_solve_migration exLens 3 5 2 1 1 1 1 0 st0 4 8 9
    (by decide) (by decide) (by decide) hr
  have ha := h.1 5 (by decide) (by decide)
  rw [hr]
  simp only [resSurf, Option.map_some']
  rw [ha]
  decide

/-- C3 counterexample: with the element group spanning surfaces 3..5,
the transform returns cb1 = 4 and cb2 = 8, so cb2 - cb1 = 4, while the
claim demands lastSurface - firstSurface + 3 = 5. -/
theorem length_span_counterexample :
    resIndices (addTiltAndDecentreAboutPivot exLens 3 5 2 1 1 1 1 0) = some (4, 8, 9) ∧
    ¬((8 : Int) - 4 = 5 - 3 + 3) := ⟨rfl, by decide⟩

/-- C3 (amended): for valid bounds the transform increases the
sequence length by exactly 4, and the returned indices satisfy
cb2 - cb1 = lastSurface - firstSurface + 2 (src/Controller.py lines
68-86: cb2 = cb1 + (lastSurf - firstSurf + 1) + 1). -/
theorem length_increase_and_span (st : OpticalState) (f l : Int) (pz xc yc xt yt : Rat)
    (o : Int) (st' : OpticalState) (c1 c2 d : Int)
    (hf : 1 ≤ f) (hfl : f ≤ l) (hl : l ≤ (st.surfaces.length : Int))
    (hrun : addTiltAndDecentreAboutPivot st f l pz xc yc xt yt o = some (st', (c1, c2, d))) :
    st'.surfaces.length = st.surfaces.length + 4 ∧ c2 - c1 = l - f + 2 := by
  obtain ⟨param1, hfx, hidx, hlen, hrest⟩ :=
    run_spec st f l pz xc yc xt yt o st' c1 c2 d hf hfl hl hrun
  exact ⟨hlen, by omega⟩

theorem length_increase_and_span_witness :
    resLen (addTiltAndDecentreAboutPivot exLens 3 5 2 1 1 1 1 0) = some 10 := by
  obtain ⟨st0, hr⟩ : ∃ st0,
      addTiltAndDecentreAboutPivot exLens 3 5 2 1 1 1 1 0 = some (st0, (4, 8, 9)) := ⟨_, rfl⟩
  have h := length_increase_and_span exLens 3 5 2 1 1 1 1 0 st0 4 8 9
    (by decide) (by decide) (by decide) hr
  rw [resLen, hr, Option.map_some', h.1]
  rfl

/-- C4 counterexample: the claim expects the scenario indices
(cb1, cb2, dummy) = (4, 9, 10) for a group spanning 3..5, but the
transform returns (4, 8, 9): cb2 = cb1 + n + 1 = 4 + 3 + 1 = 8. -/
theorem scenario_3_5_counterexample :
    resIndices (addTiltAndDecentreAboutPivot exLens 3 5 2 1 1 1 1 0) = some (4, 8, 9) ∧
    ((4, 8, 9) : Int × Int × Int) ≠ (4, 9, 10) := ⟨rfl, by decide⟩

/-- C4 (amended): when the element group spans surfaces 3..5 (n = 3)
the transform inserts s1 at 3 and returns cb1 = 4, cb2 = 8, dummy = 9;
the original surface 5 (now at index 7) has its thickness written to 0
with a SOLVE_THICK_FIXED constraint, and the dummy surface receives
exactly the pre-transform thickness value of original surface 5
(src/Controller.py lines 68-74 and 104-115). -/
theorem scenario_3_5 (st : OpticalState) (pz xc yc xt yt : Rat) (o : Int)
    (st' : OpticalState) (c1 c2 d : Int) (tr : List Event) (r : Int × Int × Int)
    (hl : 5 ≤ (st.surfaces.length : Int))
    (hrun : addTiltAndDecentreAboutPivot st 3 5 pz xc yc xt yt o = some (st', (c1, c2, d)))
    (htr : pivotProg 3 5 pz xc yc xt yt o ((getSurf st 5).thickness)
      ((getSurf st 5).thickSolve) = some (tr, r)) :
    (c1 = 4 ∧ c2 = 8 ∧ d = 9) ∧
    Event.insert 3 ∈ tr ∧
    Event.setThick 7 0 ∈ tr ∧
    Event.setThickSolve 7 ⟨SOLVE_THICK_FIXED, .ival 0, 0, 0, 0⟩ ∈ tr ∧
    (getSurf st' 7).thickness = 0 ∧
    (getSurf st' 9).thickness = (getSurf st 5).thickness := by
  obtain ⟨param1, hfx, hidx, hlen, hs1, hcb1, hl2, hcb2, hdum⟩ :=
    run_spec st 3 5 pz xc yc xt yt o st' c1 c2 d (by decide) (by decide) hl hrun
  obtain ⟨param1t, hfxt, htrs, hrt⟩ := pivotProg_shape _ _ _ _ _ _ _ _ _ _ _ _ htr
  subst htrs
  refine ⟨⟨by omega, by omega, by omega⟩, by simp, by simp, by simp, ?_, ?_⟩
  · have := hl2.1
    norm_num at this
    exact this
  · have := hdum.2.1
    norm_num at this
    exact this

theorem scenario_3_5_witness :
    Option.map Surface.thickness (resSurf 9 (addTiltAndDecentreAboutPivot exLens 3 5 2 1 1 1 1 0)) =
      some 7 := by
  obtain ⟨st0, hr⟩ : ∃ st0,
      addTiltAndDecentreAboutPivot exLens 3 5 2 1 1 1 1 0 = some (st0, (4, 8, 9)) := ⟨_, rfl⟩
  obtain ⟨tr0, r0, htr⟩ : ∃ tr0 r0,
      pivotProg 3 5 2 1 1 1 1 0 ((getSurf exLens 5).thickness)
        ((getSurf exLens 5).thickSolve) = some (tr0, r0) := ⟨_, _, rfl⟩
  have h := scenario_3_5 exLens 2 1 1 1 1 0 st0 4 8 9 tr0 r0 (by decide) hr htr
  rw [hr]
  simp only [resSurf, Option.map_some']
  rw [h.2.2.2.2.2]
  decide

/-- C5 (code bug): Controller.addTiltAndDecentre (src/Controller.py
line 37) invokes self.addTiltAndDecentreFromPivot, but no method of
that name is defined anywhere in the repository (the pivot method is
addTiltAndDecentreAboutPivot), so in Python 2 every call raises
AttributeError instead of performing the pivot transform with
pivotDepth = 0; the pivot entry point itself succeeds on the same
arguments. -/
theorem addTiltAndDecentre_attribute_error :
    "addTiltAndDecentreFromPivot" ∉ controllerMethodNames ∧
    (∀ (st : OpticalState) (f l : Int) (xc yc xt yt : Rat) (o : Int),
      addTiltAndDecentre st f l xc yc xt yt o = none) ∧
    addTiltAndDecentreAboutPivot exLens 3 5 0 1 1 1 1 0 ≠ none := by
  refine ⟨by decide, fun st f l xc yc xt yt o => ?_, ?_⟩
  · unfold addTiltAndDecentre
    rw [if_neg (by decide)]
  · intro hnone
    have hs : (addTiltAndDecentreAboutPivot exLens 3 5 0 1 1 1 1 0).isSome = true := rfl
    rw [hnone] at hs
    cases hs

/-- C10: the returned triple (cb1, cb2, dummy) depends only on the
group bounds: two invocations on the same state and bounds with
different pivot depth, decentre, tilt and order values return the same
triple (src/Controller.py lines 68-74 and 180: the indices are computed
from firstSurf and lastSurf before any other argument is consulted,
and the only failure point, the int() conversion of the snapshotted
solve parameter, does not depend on those arguments either). -/
theorem indices_depend_only_on_bounds (st : OpticalState) (f l : Int)
    (pz xc yc xt yt : Rat) (o : Int) (pz' xc' yc' xt' yt' : Rat) (o' : Int) :
    resIndices (addTiltAndDecentreAboutPivot st f l pz xc yc xt yt o) =
      resIndices (addTiltAndDecentreAboutPivot st f l pz' xc' yc' xt' yt' o') := by
  simp only [addTiltAndDecentreAboutPivot, pivotProg]
  cases hfix : fixParam1 (f + 1) (getSurf st l).thickSolve <;>
    simp [resIndices]

/-- C6: for each of the five coordinate-break parameter slots the
transform attaches to cb2 a pickup solve referencing cb1's matching
slot (editor column k + 5) with offset 0 and scale -1, so that
immediately after the call cb2's five resolved parameter slots equal
-1 times cb1's corresponding slots, for any input decentre and tilt
values (src/Controller.py lines 132-141). -/
theorem cb2_mirror_chain (st : OpticalState) (f l : Int) (pz xc yc xt yt : Rat)
    (o : Int) (st' : OpticalState) (c1 c2 d : Int)
    (hf : 1 ≤ f) (hfl : f ≤ l) (hl : l ≤ (st.surfaces.length : Int))
    (hrun : addTiltAndDecentreAboutPivot st f l pz xc yc xt yt o = some (st', (c1, c2, d))) :
    ∀ k : Nat, 1 ≤ k → k ≤ 5 →
      (getSurf st' c2).parSolve k = some ⟨SOLVE_PARn_PICKUP, c1, 0, -1, (k : Int) + 5⟩ ∧
      resolvedParam st' c2 k = -1 * resolvedParam st' c1 k := by
  obtain ⟨param1, hfx, hidx, hlen, hs1, hcb1, hl2, hcb2, hdum⟩ :=
    run_spec st f l pz xc yc xt yt o st' c1 c2 d hf hfl hl hrun
  obtain ⟨hc1e, hc2e, hde⟩ := hidx
  subst hc1e hc2e
  obtain ⟨hty, hts, hp6, hpk, hps1, hps2, hps3, hps4, hps5⟩ := hcb2
  obtain ⟨hqty, hqts, hq1, hq2, hq3, hq4, hq5, hq6, hqnone⟩ := hcb1
  intro k hk1 hk5
  interval_cases k
  · refine ⟨by rw [hps1]; norm_num, ?_⟩
    simp only [resolvedParam, hps1, hqnone]
    norm_num
    try ring
    try rw [show Int.toNat 1 = 1 from rfl]
  · refine ⟨by rw [hps2]; norm_num, ?_⟩
    simp only [resolvedParam, hps2, hqnone]
    norm_num
    try ring
    try rw [show Int.toNat 2 = 2 from rfl]
  · refine ⟨by rw [hps3]; norm_num, ?_⟩
    simp only [resolvedParam, hps3, hqnone]
    norm_num
    try ring
    try rw [show Int.toNat 3 = 3 from rfl]
  · refine ⟨by rw [hps4]; norm_num, ?_⟩
    simp only [resolvedParam, hps4, hqnone]
    norm_num
    try ring
    try rw [show Int.toNat 4 = 4 from rfl]
  · refine ⟨by rw [hps5]; norm_num, ?_⟩
    simp only [resolvedParam, hps5, hqnone]
    norm_num
    try ring
    try rw [show Int.toNat 5 = 5 from rfl]

theorem cb2_mirror_chain_witness :
    resResolved 8 3 (addTiltAndDecentreAboutPivot exLens 3 5 2 10 20 30 40 0) =
      Option.map negRat (resResolved 4 3 (addTiltAndDecentreAboutPivot exLens 3 5 2 10 20 30 40 0)) := by
  obtain ⟨st0, hr⟩ : ∃ st0,
      addTiltAndDecentreAboutPivot exLens 3 5 2 10 20 30 40 0 = some (st0, (4, 8, 9)) := ⟨_, rfl⟩
  have h := cb2_mirror_chain exLens 3 5 2 10 20 30 40 0 st0 4 8 9
    (by decide) (by decide) (by decide) hr
  have ha := (h 3 (by decide) (by decide)).2
  rw [hr]
  simp only [resResolved, Option.map_some', negRat]
  rw [ha]

/-- C7: the transform writes the pivot geometry constraint chain:
s1's thickness is the fixed value pivotDepth; cb1's thickness is a
pickup from s1 with offset 0 and scale -1; the shifted trailing group
surface (lastSurface + 2) gets a position solve referencing cb1 with
offset 0; and cb2's thickness is a pickup from the shifted trailing
surface with offset 0 and scale -1 (src/Controller.py lines
143-162). -/
theorem pivot_geometry_chain (st : OpticalState) (f l : Int) (pz xc yc xt yt : Rat)
    (o : Int) (st' : OpticalState) (c1 c2 d : Int)
    (hf : 1 ≤ f) (hfl : f ≤ l) (hl : l ≤ (st.surfaces.length : Int))
    (hrun : addTiltAndDecentreAboutPivot st f l pz xc yc xt yt o = some (st', (c1, c2, d))) :
    ((getSurf st' f).thickSolve.code = SOLVE_THICK_FIXED ∧
      (getSurf st' f).thickness = pz) ∧
    ((getSurf st' c1).thickSolve.code = SOLVE_THICK_PICKUP ∧
      (getSurf st' c1).thickSolve.p1 = SParam.ival f ∧
      thickPickupOffset (getSurf st' c1).thickSolve = 0 ∧
      thickPickupScale (getSurf st' c1).thickSolve = -1) ∧
    ((getSurf st' (l + 2)).thickSolve.code = SOLVE_THICK_POS ∧
      (getSurf st' (l + 2)).thickSolve.p1 = SParam.ival c1 ∧
      thickPosOffset (getSurf st' (l + 2)).thickSolve = 0) ∧
    ((getSurf st' c2).thickSolve.code = SOLVE_THICK_PICKUP ∧
      (getSurf st' c2).thickSolve.p1 = SParam.ival (l + 2) ∧
      thickPickupOffset (getSurf st' c2).thickSolve = 0 ∧
      thickPickupScale (getSurf st' c2).thickSolve = -1) := by
  obtain ⟨param1, hfx, hidx, hlen, hs1, hcb1, hl2, hcb2, hdum⟩ :=
    run_spec st f l pz xc yc xt yt o st' c1 c2 d hf hfl hl hrun
  obtain ⟨hc1e, hc2e, hde⟩ := hidx
  subst hc1e hc2e
  refine ⟨⟨by rw [hs1.2.1], hs1.1⟩,
    ⟨by rw [hcb1.2.1], by rw [hcb1.2.1],
      by simp [thickPickupOffset, hcb1.2.1], by simp [thickPickupScale, hcb1.2.1]⟩,
    ⟨by rw [hl2.2], by rw [hl2.2], by simp [thickPosOffset, hl2.2]⟩,
    ⟨by rw [hcb2.2.1], by rw [hcb2.2.1],
      by simp [thickPickupOffset, hcb2.2.1], by simp [thickPickupScale, hcb2.2.1]⟩⟩

theorem pivot_geometry_chain_witness :
    Option.map SolveTuple.code (Option.map Surface.thickSolve
      (resSurf 4 (addTiltAndDecentreAboutPivot exLens 3 5 2 1 1 1 1 0))) =
      some SOLVE_THICK_PICKUP ∧
    Option.map Surface.thickness
      (resSurf 3 (addTiltAndDecentreAboutPivot exLens 3 5 2 1 1 1 1 0)) = some 2 := by
  obtain ⟨st0, hr⟩ : ∃ st0,
      addTiltAndDecentreAboutPivot exLens 3 5 2 1 1 1 1 0 = some (st0, (4, 8, 9)) := ⟨_, rfl⟩
  have h := pivot_geometry_chain exLens 3 5 2 1 1 1 1 0 st0 4 8 9
    (by decide) (by decide) (by decide) hr
  rw [hr]
  simp only [resSurf, Option.map_some']
  exact ⟨by rw [h.2.1.1], by rw [h.1.2]⟩

/-- C8: the order flags written to cb1 and cb2 are opposite: with
order = 0 cb1's order slot (parameter 6) is 0 and cb2's is 1, and with
order = 1 cb1's is 1 and cb2's is 0; the values decentreX, decentreY,
tiltX, tiltY and a zero fifth slot are written into cb1's parameter
slots 1-5; and the trace contains no value write to any of cb2's
parameter slots 1-5 (src/Controller.py lines 164-176). -/
theorem order_flags_and_values (st : OpticalState) (f l : Int) (pz xc yc xt yt : Rat)
    (o : Int) (st' : OpticalState) (c1 c2 d : Int) (tr : List Event) (r : Int × Int × Int)
    (hf : 1 ≤ f) (hfl : f ≤ l) (hl : l ≤ (st.surfaces.length : Int))
    (hrun : addTiltAndDecentreAboutPivot st f l pz xc yc xt yt o = some (st', (c1, c2, d)))
    (htr : pivotProg f l pz xc yc xt yt o ((getSurf st l).thickness)
      ((getSurf st l).thickSolve) = some (tr, r)) :
    ((o = 0 → (getSurf st' c1).params 6 = 0 ∧ (getSurf st' c2).params 6 = 1) ∧
     (o = 1 → (getSurf st' c1).params 6 = 1 ∧ (getSurf st' c2).params 6 = 0)) ∧
    ((getSurf st' c1).params 1 = xc ∧ (getSurf st' c1).params 2 = yc ∧
      (getSurf st' c1).params 3 = xt ∧ (getSurf st' c1).params 4 = yt ∧
      (getSurf st' c1).params 5 = 0) ∧
    (∀ (k : Nat) (v : Rat), 1 ≤ k → k ≤ 5 → Event.setParam c2 k v ∉ tr) := by
  obtain ⟨param1, hfx, hidx, hlen, hs1, hcb1, hl2, hcb2, hdum⟩ :=
    run_spec st f l pz xc yc xt yt o st' c1 c2 d hf hfl hl hrun
  obtain ⟨hc1e, hc2e, hde⟩ := hidx
  subst hc1e hc2e
  obtain ⟨param1t, hfxt, htrs, hrt⟩ := pivotProg_shape _ _ _ _ _ _ _ _ _ _ _ _ htr
  subst htrs
  refine ⟨⟨fun ho => ?_, fun ho => ?_⟩,
    ⟨hcb1.2.2.1, hcb1.2.2.2.1, hcb1.2.2.2.2.1, hcb1.2.2.2.2.2.1, hcb1.2.2.2.2.2.2.1⟩, ?_⟩
  · subst ho
    refine ⟨?_, ?_⟩
    · rw [hcb1.2.2.2.2.2.2.2.1]
      norm_num
    · rw [hcb2.2.2.1]
      norm_num
  · subst ho
    refine ⟨?_, ?_⟩
    · rw [hcb1.2.2.2.2.2.2.2.1]
      norm_num
    · rw [hcb2.2.2.1]
      norm_num
  · intro k v hk1 hk5 hmem
    simp only [List.mem_append, List.mem_cons, List.not_mem_nil, or_false] at hmem
    simp at hmem
    rcases hmem with ⟨hi, hp, hv⟩ | ⟨hi, hp, hv⟩ | ⟨hi, hp, hv⟩ | ⟨hi, hp, hv⟩ |
      ⟨hi, hp, hv⟩ | ⟨hi, hp, hv⟩ | ⟨hi, hp, hv⟩ <;> omega

theorem order_flags_and_values_witness :
    Option.map param6 (resSurf 4 (addTiltAndDecentreAboutPivot exLens 3 5 2 1 1 1 1 1)) = some 1 ∧
    Option.map param6 (resSurf 8 (addTiltAndDecentreAboutPivot exLens 3 5 2 1 1 1 1 1)) = some 0 := by
  obtain ⟨st0, hr⟩ : ∃ st0,
      addTiltAndDecentreAboutPivot exLens 3 5 2 1 1 1 1 1 = some (st0, (4, 8, 9)) := ⟨_, rfl⟩
  obtain ⟨tr0, r0, htr⟩ : ∃ tr0 r0,
      pivotProg 3 5 2 1 1 1 1 1 ((getSurf exLens 5).thickness)
        ((getSurf exLens 5).thickSolve) = some (tr0, r0) := ⟨_, _, rfl⟩
  have h := order_flags_and_values exLens 3 5 2 1 1 1 1 1 st0 4 8 9 tr0 r0
    (by decide) (by decide) (by decide) hr htr
  have ha := h.1.2 rfl
  rw [hr]
  simp only [resSurf, Option.map_some', param6]
  exact ⟨by rw [ha.1], by rw [ha.2]⟩

/-- C9: the trailing surface's thickness value and thickness
constraint are read strictly before any insertion, and the four
insertions are performed in strictly ascending index order: the trace
starts with the two snapshot reads followed immediately by the four
insertions at s1 < cb1 < cb2 < dummy, and no later event is a read or
an insertion (src/Controller.py lines 76-86). -/
theorem snapshot_before_ascending_inserts (f l : Int) (pz xc yc xt yt : Rat)
    (o : Int) (th : Rat) (sv : SolveTuple) (tr : List Event) (r : Int × Int × Int)
    (hfl : f ≤ l)
    (hp : pivotProg f l pz xc yc xt yt o th sv = some (tr, r)) :
    tr.take 6 = [Event.getThick l, Event.getSolve l, Event.insert f,
      Event.insert (f + 1), Event.insert (f + 1 + (l - f + 1) + 1),
      Event.insert (f + 1 + (l - f + 1) + 1 + 1)] ∧
    (tr.drop 6).all noReadInsert = true ∧
    (f < f + 1 ∧ f + 1 < f + 1 + (l - f + 1) + 1 ∧
      f + 1 + (l - f + 1) + 1 < f + 1 + (l - f + 1) + 1 + 1) := by
  obtain ⟨param1, hfx, htrs, hrs⟩ := pivotProg_shape _ _ _ _ _ _ _ _ _ _ _ _ hp
  subst htrs
  refine ⟨by simp, by simp [noReadInsert, isRead, isInsert], by omega, by omega, by omega⟩

theorem snapshot_before_ascending_inserts_witness :
    progTraceTake6 (pivotProg 3 5 2 1 1 1 1 0 7 ⟨5, SParam.ival 5, 11, 12, 13⟩) =
      some [Event.getThick 5, Event.getSolve 5, Event.insert 3, Event.insert 4,
        Event.insert 8, Event.insert 9] ∧
    progTraceTailOk (pivotProg 3 5 2 1 1 1 1 0 7 ⟨5, SParam.ival 5, 11, 12, 13⟩) =
      some true := by
  obtain ⟨tr0, r0, htr⟩ : ∃ tr0 r0,
      pivotProg 3 5 2 1 1 1 1 0 7 ⟨5, SParam.ival 5, 11, 12, 13⟩ = some (tr0, r0) := ⟨_, _, rfl⟩
  have h := snapshot_before_ascending_inserts 3 5 2 1 1 1 1 0 7
    ⟨5, SParam.ival 5, 11, 12, 13⟩ tr0 r0 (by decide) htr
  rw [htr]
  simp only [progTraceTake6, progTraceTailOk, Option.map_some']
  refine ⟨?_, by rw [h.2.1]⟩
  rw [h.1]
  decide
